import Mathlib

/-!
Shallow embedding of the theme-switching service of the messenger-client
repository (the `ThemeService` Angular service) together with the external
collaborators it touches: the local-storage key-value store, the browser
window exposing the `prefers-color-scheme` media query, and the DOM body
class list manipulated through the renderer.

The service is translated method by method:
- `ThemeService.getDefaultSettings` embeds the private `_getDefaultSettings`
  pipeline as invoked from the constructor (the spec calls this flow
  `initialize()`);
- `ThemeService.isSystemDark`, `ThemeService.setMode`, `ThemeService.apply`,
  `ThemeService.startSystemModeSynchronization`, `ThemeService.setSystemMode`,
  `ThemeService.setUserDefinedMode`, `ThemeService.setLightMode` and
  `ThemeService.setDarkMode` embed the methods of the same names.

JavaScript `undefined` flowing through an optional chain is embedded as
`Option.none`; a JavaScript boolean context coerces `undefined` to `false`
(falsiness), embedded by `Option.getD false`.
-/

/-- Settings record for the visual appearance: the `ThemeSettings` entity,
a single `darkMode : boolean` field. -/
structure ThemeSettings where
  darkMode : Bool
deriving DecidableEq, Repr

/-- Browser window collaborator: carries the current value of the
`(prefers-color-scheme: dark)` media query (`matchMedia(...).matches`). -/
structure BrowserWindow where
  prefersDark : Bool
deriving DecidableEq, Repr

/-- Environment seen through `document`: `defaultView` is `some w` in a
browser context and `none` in a headless/non-browser context (JS
`document.defaultView` being `null`/`undefined`). -/
structure MediaEnv where
  defaultView : Option BrowserWindow
deriving DecidableEq, Repr

/-- Observable state of the service and its collaborators:
the local-storage contents, the in-memory `settings` field, the class list
of the document body (render collaborator), whether the OS-preference-change
subscription is active, and whether the owning scope's destroy signal has
fired. -/
structure ThemeState where
  store : List (String × String)
  settings : Option ThemeSettings
  bodyClasses : List String
  subActive : Bool
  destroyed : Bool
deriving DecidableEq, Repr

/-- Local-storage `getItem`: first binding for the key, if any. -/
def getItem (store : List (String × String)) (key : String) : Option String :=
  (store.find? (fun kv => kv.1 == key)).map (fun kv => kv.2)

/-- Local-storage `setItem`: overwrite the binding for the key. -/
def setItem (store : List (String × String)) (key value : String) :
    List (String × String) :=
  (key, value) :: store.filter (fun kv => kv.1 != key)

/-- Local-storage `removeItem`: drop the binding for the key. -/
def removeItem (store : List (String × String)) (key : String) :
    List (String × String) :=
  store.filter (fun kv => kv.1 != key)

/-- Renderer `addClass` on the body: DOM class lists are sets, so adding an
already-present class is a no-op. -/
def addClass (classes : List String) (c : String) : List String :=
  if c ∈ classes then classes else classes ++ [c]

/-- Renderer `removeClass` on the body. -/
def removeClass (classes : List String) (c : String) : List String :=
  classes.filter (fun x => x != c)

/-- Modelled from the spec: the `LocalStorage` wrapper (under `@core/storage`,
not in the visible sources) JSON-serializes the value passed to `setItem`;
the spec fixes the stored value to the JSON-serialized `\x7bdarkMode: boolean\x7d`
record. -/
def serializeSettings (ts : ThemeSettings) : String :=
  if ts.darkMode then "\x7b\"darkMode\":true\x7d" else "\x7b\"darkMode\":false\x7d"

/-- Modelled from the spec: `JSON.parse` applied to a persisted theme value,
restricted to the record shape the spec fixes for this key
(JSON-serialized `\x7bdarkMode: boolean\x7d`); any other string is treated as
malformed and fails to deserialize (`none` embeds the thrown parse error). -/
def parseSettings (s : String) : Option ThemeSettings :=
  if s = "\x7b\"darkMode\":true\x7d" then some ⟨true⟩
  else if s = "\x7b\"darkMode\":false\x7d" then some ⟨false⟩
  else none

namespace ThemeService

/-- The light mode background css class name attached to the HTML body. -/
def LIGHT_MODE_CSS_CLASS_NAME : String := "theme-alternate"

/-- Name of the local-storage key for the theme settings. -/
def SETTINGS_KEY : String := "theme"

/-- CSS media feature used to detect the OS color-scheme preference. -/
def SYSTEM_DARK_MODE_MEDIA_QUERY : String := "(prefers-color-scheme: dark)"

/-- The window's `matchMedia(query).matches` for the dark-scheme query. -/
def matchMedia (w : BrowserWindow) (_query : String) : Bool :=
  w.prefersDark

/-- Embeds `isSystemDark()`:
`this.document.defaultView?.matchMedia(QUERY).matches!`.
The optional chain short-circuits to JS `undefined` (here `none`) when no
`defaultView` exists; the non-null assertion `!` erases that case only in
the types, not at runtime. -/
def isSystemDark (env : MediaEnv) : Option Bool :=
  env.defaultView.map (fun w => matchMedia w SYSTEM_DARK_MODE_MEDIA_QUERY)

/-- The value of `isSystemDark()` as consumed by a JS boolean context:
`undefined` is falsy and coerces to `false`. -/
def isSystemDarkValue (env : MediaEnv) : Bool :=
  (isSystemDark env).getD false

/-- Embeds `setMode(darkMode)`: when dark, `removeClass` the light-mode class
from the body; when light, `addClass` it. -/
def setMode (st : ThemeState) (darkMode : Bool) : ThemeState :=
  if darkMode then
    { st with bodyClasses := removeClass st.bodyClasses LIGHT_MODE_CSS_CLASS_NAME }
  else
    { st with bodyClasses := addClass st.bodyClasses LIGHT_MODE_CSS_CLASS_NAME }

/-- Embeds `apply()`: `setMode(!!this.settings?.darkMode)`. -/
def apply (st : ThemeState) : ThemeState :=
  setMode st ((st.settings.map ThemeSettings.darkMode).getD false)

/-- Embeds `startSystemModeSynchronization()`: when a `defaultView` exists,
subscribe to the media-query `change` events with `takeUntil(this._destroy$)`.
If the destroy signal has already fired, `takeUntil` completes the
subscription immediately (modelled from the spec: the `DestroyService`
lifecycle signal is outside the visible sources, and the spec requires that
no mode is ever applied after teardown). -/
def startSystemModeSynchronization (env : MediaEnv) (st : ThemeState) : ThemeState :=
  match env.defaultView with
  | none => st
  | some _ => if st.destroyed then st else { st with subActive := true }

/-- Delivery of one media-query `change` event carrying `matches`: the
subscription's handler runs `setMode(e.matches)` while the subscription is
alive, and nothing otherwise. -/
def osChangeEvent (st : ThemeState) (m : Bool) : ThemeState :=
  if st.subActive then setMode st m else st

/-- Delivery of a whole sequence of media-query `change` events. -/
def osChangeEvents (st : ThemeState) (events : List Bool) : ThemeState :=
  events.foldl osChangeEvent st

/-- The owning scope's destroy signal fires: `takeUntil` unsubscribes the
OS-preference-change subscription. -/
def destroyScope (st : ThemeState) : ThemeState :=
  { st with subActive := false, destroyed := true }

/-- The default branch of `_getDefaultSettings`: when no (truthy) persisted
value exists, `this.settings = new ThemeSettings()`,
`this.settings.darkMode = this.isSystemDark()`, then
`this.startSystemModeSynchronization()`. -/
def deriveDefaults (env : MediaEnv) (st : ThemeState) : ThemeState :=
  startSystemModeSynchronization env
    { st with settings := some ⟨isSystemDarkValue env⟩ }

/-- Embeds the `_getDefaultSettings(SETTINGS_KEY)` pipeline subscribed from
the constructor (the spec's `initialize()`):
`this.settings = serializedValue ? JSON.parse(serializedValue) : undefined`
(a falsy serialized value — absent key or empty string — leaves `settings`
undefined), then `if (!this.settings)` runs the default branch.  A thrown
`JSON.parse` error propagates out of the pipeline (`Except.error`), since
`subscribe()` installs no error handler. -/
def getDefaultSettings (env : MediaEnv) (st : ThemeState) : Except Unit ThemeState :=
  match getItem st.store SETTINGS_KEY with
  | none => Except.ok (deriveDefaults env { st with settings := none })
  | some s =>
    if s = "" then
      Except.ok (deriveDefaults env { st with settings := none })
    else
      match parseSettings s with
      | none => Except.error ()
      | some ts => Except.ok { st with settings := some ts }

/-- Embeds `setSystemMode()`: `setMode(isSystemDark())`, restart the
synchronization, then `removeItem(SETTINGS_KEY)`. -/
def setSystemMode (env : MediaEnv) (st : ThemeState) : ThemeState :=
  let st1 := setMode st (isSystemDarkValue env)
  let st2 := startSystemModeSynchronization env st1
  { st2 with store := removeItem st2.store SETTINGS_KEY }

/-- Embeds `setUserDefinedMode(darkMode)`: `setMode(darkMode)`, overwrite the
in-memory settings, persist the serialized record under the key. -/
def setUserDefinedMode (st : ThemeState) (darkMode : Bool) : ThemeState :=
  let st1 := setMode st darkMode
  let st2 := { st1 with settings := some ⟨darkMode⟩ }
  { st2 with store := setItem st2.store SETTINGS_KEY (serializeSettings ⟨darkMode⟩) }

/-- Embeds `setLightMode()`. -/
def setLightMode (st : ThemeState) : ThemeState :=
  setUserDefinedMode st false

/-- Embeds `setDarkMode()`. -/
def setDarkMode (st : ThemeState) : ThemeState :=
  setUserDefinedMode st true

end ThemeService

/-! ### Helper lemmas about the collaborators -/

/-- Reading a key back right after writing it yields the written value. -/
theorem getItem_setItem (store : List (String × String)) (k v : String) :
    getItem (setItem store k v) k = some v := by
  unfold getItem setItem
  rw [List.find?_cons_of_pos]
  · rfl
  · simp

/-- Reading a key back right after removing it yields no value. -/
theorem getItem_removeItem (store : List (String × String)) (k : String) :
    getItem (removeItem store k) k = none := by
  simp only [getItem, removeItem, Option.map_eq_none']
  rw [List.find?_eq_none]
  intro kv hkv
  have h2 := (List.mem_filter.mp hkv).2
  simpa using h2

/-- The `setMode` step only ever touches the body class list. -/
theorem setMode_frame (st : ThemeState) (b : Bool) :
    (ThemeService.setMode st b).store = st.store ∧
    (ThemeService.setMode st b).settings = st.settings ∧
    (ThemeService.setMode st b).subActive = st.subActive ∧
    (ThemeService.setMode st b).destroyed = st.destroyed := by
  cases b <;> simp [ThemeService.setMode]

/-- Starting the synchronization only ever touches the subscription flag. -/
theorem startSync_frame (env : MediaEnv) (st : ThemeState) :
    (ThemeService.startSystemModeSynchronization env st).bodyClasses = st.bodyClasses ∧
    (ThemeService.startSystemModeSynchronization env st).settings = st.settings ∧
    (ThemeService.startSystemModeSynchronization env st).store = st.store ∧
    (ThemeService.startSystemModeSynchronization env st).destroyed = st.destroyed := by
  unfold ThemeService.startSystemModeSynchronization
  cases env.defaultView with
  | none => exact ⟨rfl, rfl, rfl, rfl⟩
  | some w => by_cases h : st.destroyed <;> simp [h]

/-- In a live browser context, starting the synchronization activates the
subscription. -/
theorem startSync_subActive (env : MediaEnv) (w : BrowserWindow) (st : ThemeState)
    (hw : env.defaultView = some w) (hd : st.destroyed = false) :
    (ThemeService.startSystemModeSynchronization env st).subActive = true := by
  unfold ThemeService.startSystemModeSynchronization
  rw [hw]
  simp [hd]

/-- In a browser context the coerced OS preference is the media-query value. -/
theorem isSystemDarkValue_of_window (env : MediaEnv) (w : BrowserWindow)
    (hw : env.defaultView = some w) :
    ThemeService.isSystemDarkValue env = w.prefersDark := by
  simp [ThemeService.isSystemDarkValue, ThemeService.isSystemDark,
    ThemeService.matchMedia, hw]

/-- The `apply` step applies exactly the stored `darkMode` value. -/
theorem apply_of_settings (st : ThemeState) (b : Bool)
    (h : st.settings = some ⟨b⟩) :
    ThemeService.apply st = ThemeService.setMode st b := by
  unfold ThemeService.apply
  rw [h]
  simp

/-- A delivered change event is a no-op once the subscription is inactive. -/
theorem osChangeEvent_inactive (st : ThemeState) (m : Bool)
    (h : st.subActive = false) :
    ThemeService.osChangeEvent st m = st := by
  simp [ThemeService.osChangeEvent, h]

/-! ### Claim theorems -/

/-- Claim C1, counterexample: with no persisted record, OS preference dark,
and the light-mode class initially on the body, `initialize()` leaves the
body class list untouched — the light-mode class is still present, so dark
mode has NOT been applied to the render collaborator, contradicting the
claim that initialization applies the derived mode. -/
theorem C1_counterexample :
    ThemeService.getDefaultSettings ⟨some ⟨true⟩⟩
        ⟨[], none, ["theme-alternate"], false, false⟩ =
      Except.ok ⟨[], some ⟨true⟩, ["theme-alternate"], true, false⟩ ∧
    ThemeService.LIGHT_MODE_CSS_CLASS_NAME ∈
      (⟨[], some ⟨true⟩, ["theme-alternate"], true, false⟩ : ThemeState).bodyClasses := by
  exact ⟨rfl, by simp [ThemeService.LIGHT_MODE_CSS_CLASS_NAME]⟩

/-- Claim C1, amended: with no persisted record in a live browser context,
`initialize()` derives the mode from the current OS preference into the
in-memory settings and starts the OS-sync subscription, but touches no body
class itself; the derived mode is applied to the render collaborator only by
a subsequent `apply()` call. -/
theorem C1_amended_follows_system (env : MediaEnv) (w : BrowserWindow) (st : ThemeState)
    (hw : env.defaultView = some w)
    (habs : getItem st.store ThemeService.SETTINGS_KEY = none)
    (hd : st.destroyed = false) :
    ThemeService.getDefaultSettings env st =
      Except.ok (ThemeService.deriveDefaults env { st with settings := none }) ∧
    (ThemeService.deriveDefaults env { st with settings := none }).settings =
      some ⟨w.prefersDark⟩ ∧
    (ThemeService.deriveDefaults env { st with settings := none }).subActive = true ∧
    (ThemeService.deriveDefaults env { st with settings := none }).bodyClasses =
      st.bodyClasses ∧
    ThemeService.apply (ThemeService.deriveDefaults env { st with settings := none }) =
      ThemeService.setMode (ThemeService.deriveDefaults env { st with settings := none })
        w.prefersDark := by
  have hval := isSystemDarkValue_of_window env w hw
  have hsettings :
      (ThemeService.deriveDefaults env { st with settings := none }).settings =
        some ⟨w.prefersDark⟩ := by
    unfold ThemeService.deriveDefaults
    rw [(startSync_frame _ _).2.1, hval]
  refine ⟨?_, hsettings, ?_, ?_, ?_⟩
  · unfold ThemeService.getDefaultSettings
    rw [habs]
  · unfold ThemeService.deriveDefaults
    exact startSync_subActive env w _ hw hd
  · unfold ThemeService.deriveDefaults
    rw [(startSync_frame _ _).1]
  · exact apply_of_settings _ _ hsettings

/-- Claim C1, witness: the amended theorem evaluated on an empty store with a
dark OS preference. -/
theorem C1_witness :
    ThemeService.getDefaultSettings ⟨some ⟨true⟩⟩ ⟨[], none, [], false, false⟩ =
      Except.ok (ThemeService.deriveDefaults ⟨some ⟨true⟩⟩ ⟨[], none, [], false, false⟩) ∧
    (ThemeService.deriveDefaults ⟨some ⟨true⟩⟩ ⟨[], none, [], false, false⟩).settings =
      some ⟨true⟩ ∧
    (ThemeService.deriveDefaults ⟨some ⟨true⟩⟩ ⟨[], none, [], false, false⟩).subActive = true ∧
    (ThemeService.deriveDefaults ⟨some ⟨true⟩⟩ ⟨[], none, [], false, false⟩).bodyClasses = [] ∧
    ThemeService.apply (ThemeService.deriveDefaults ⟨some ⟨true⟩⟩ ⟨[], none, [], false, false⟩) =
      ThemeService.setMode
        (ThemeService.deriveDefaults ⟨some ⟨true⟩⟩ ⟨[], none, [], false, false⟩) true :=
  C1_amended_follows_system ⟨some ⟨true⟩⟩ ⟨true⟩ ⟨[], none, [], false, false⟩ rfl rfl rfl

/-- Claim C2, counterexample: with persisted record `\x7bdarkMode: false\x7d` and a
body carrying no light-mode class, `initialize()` leaves the body class list
untouched — the light-mode class is NOT added, so light mode has not been
applied to the render collaborator, contradicting the claim that the
deserialized mode is applied. -/
theorem C2_counterexample :
    ThemeService.getDefaultSettings ⟨some ⟨false⟩⟩
        ⟨[("theme", "\x7b\"darkMode\":false\x7d")], none, [], false, false⟩ =
      Except.ok
        ⟨[("theme", "\x7b\"darkMode\":false\x7d")], some ⟨false⟩, [], false, false⟩ ∧
    ThemeService.LIGHT_MODE_CSS_CLASS_NAME ∉
      (⟨[("theme", "\x7b\"darkMode\":false\x7d")], some ⟨false⟩, [], false, false⟩ :
        ThemeState).bodyClasses := by
  exact ⟨rfl, by simp⟩

/-- Claim C2, amended: with a persisted settings record under the fixed key,
`initialize()` deserializes it into the in-memory settings, does not start
the OS-sync subscription and touches no body class itself; the persisted
mode reaches the render collaborator only through a subsequent `apply()`. -/
theorem C2_amended_persisted (env : MediaEnv) (st : ThemeState) (b : Bool)
    (hs : getItem st.store ThemeService.SETTINGS_KEY = some (serializeSettings ⟨b⟩)) :
    ThemeService.getDefaultSettings env st =
      Except.ok { st with settings := some ⟨b⟩ } ∧
    ({ st with settings := some ⟨b⟩ } : ThemeState).subActive = st.subActive ∧
    ({ st with settings := some ⟨b⟩ } : ThemeState).bodyClasses = st.bodyClasses ∧
    ThemeService.apply { st with settings := some ⟨b⟩ } =
      ThemeService.setMode { st with settings := some ⟨b⟩ } b := by
  refine ⟨?_, rfl, rfl, apply_of_settings _ _ rfl⟩
  unfold ThemeService.getDefaultSettings
  rw [hs]
  cases b <;> rfl

/-- Claim C2, witness: the amended theorem evaluated on a store persisting
`\x7bdarkMode: false\x7d`. -/
theorem C2_witness :
    ThemeService.getDefaultSettings ⟨none⟩
        ⟨[("theme", serializeSettings ⟨false⟩)], none, [], false, false⟩ =
      Except.ok
        ⟨[("theme", serializeSettings ⟨false⟩)], some ⟨false⟩, [], false, false⟩ ∧
    ThemeService.apply
        (⟨[("theme", serializeSettings ⟨false⟩)], some ⟨false⟩, [], false, false⟩ : ThemeState) =
      ThemeService.setMode
        (⟨[("theme", serializeSettings ⟨false⟩)], some ⟨false⟩, [], false, false⟩ : ThemeState)
        false :=
  ⟨(C2_amended_persisted ⟨none⟩
      ⟨[("theme", serializeSettings ⟨false⟩)], none, [], false, false⟩ false rfl).1,
   (C2_amended_persisted ⟨none⟩
      ⟨[("theme", serializeSettings ⟨false⟩)], none, [], false, false⟩ false rfl).2.2.2⟩

/-- Claim C3: `setSystemMode()` applies the current OS preference to the body
class list, activates the OS-sync subscription, removes the persisted record
from the store, and a subsequent `initialize()` on the resulting state takes
exactly the no-persisted-record branch. -/
theorem C3_setSystemMode (env : MediaEnv) (w : BrowserWindow) (st : ThemeState)
    (hw : env.defaultView = some w) (hd : st.destroyed = false) :
    (ThemeService.setSystemMode env st).bodyClasses =
      (ThemeService.setMode st w.prefersDark).bodyClasses ∧
    (ThemeService.setSystemMode env st).subActive = true ∧
    getItem (ThemeService.setSystemMode env st).store ThemeService.SETTINGS_KEY = none ∧
    ∀ env2 : MediaEnv,
      ThemeService.getDefaultSettings env2 (ThemeService.setSystemMode env st) =
        Except.ok (ThemeService.deriveDefaults env2
          { ThemeService.setSystemMode env st with settings := none }) := by
  have hval := isSystemDarkValue_of_window env w hw
  have hstore : (ThemeService.setSystemMode env st).store =
      removeItem (ThemeService.setMode st (ThemeService.isSystemDarkValue env)).store
        ThemeService.SETTINGS_KEY := by
    unfold ThemeService.setSystemMode
    dsimp only
    rw [(startSync_frame _ _).2.2.1]
  have hnone : getItem (ThemeService.setSystemMode env st).store
      ThemeService.SETTINGS_KEY = none := by
    rw [hstore]
    exact getItem_removeItem _ _
  refine ⟨?_, ?_, hnone, ?_⟩
  · unfold ThemeService.setSystemMode
    dsimp only
    rw [(startSync_frame _ _).1, hval]
  · unfold ThemeService.setSystemMode
    dsimp only
    have hd2 : (ThemeService.setMode st (ThemeService.isSystemDarkValue env)).destroyed
        = false := by
      rw [(setMode_frame _ _).2.2.2, hd]
    exact startSync_subActive env w _ hw hd2
  · intro env2
    unfold ThemeService.getDefaultSettings
    rw [hnone]

/-- Claim C3, witness: `setSystemMode()` evaluated on a state holding a
persisted record, under a dark OS preference. -/
theorem C3_witness :
    getItem
      (ThemeService.setSystemMode ⟨some ⟨true⟩⟩
        ⟨[("theme", "\x7b\"darkMode\":false\x7d")], some ⟨false⟩, ["theme-alternate"],
          false, false⟩).store
      ThemeService.SETTINGS_KEY = none ∧
    (ThemeService.setSystemMode ⟨some ⟨true⟩⟩
      ⟨[("theme", "\x7b\"darkMode\":false\x7d")], some ⟨false⟩, ["theme-alternate"],
        false, false⟩).subActive = true :=
  ⟨(C3_setSystemMode ⟨some ⟨true⟩⟩ ⟨true⟩
      ⟨[("theme", "\x7b\"darkMode\":false\x7d")], some ⟨false⟩, ["theme-alternate"],
        false, false⟩ rfl rfl).2.2.1,
   (C3_setSystemMode ⟨some ⟨true⟩⟩ ⟨true⟩
      ⟨[("theme", "\x7b\"darkMode\":false\x7d")], some ⟨false⟩, ["theme-alternate"],
        false, false⟩ rfl rfl).2.1⟩

/-- Claim C4: `setSystemMode()` never touches the in-memory settings field;
after `setUserDefinedMode(b)` followed by `setSystemMode()`, the settings
still hold the stale user-defined mode `b`, and a subsequent `apply()`
re-applies `b` rather than the current OS preference. -/
theorem C4_stale_settings (env : MediaEnv) (st : ThemeState) (b : Bool) :
    (ThemeService.setSystemMode env st).settings = st.settings ∧
    (ThemeService.setSystemMode env (ThemeService.setUserDefinedMode st b)).settings =
      some ⟨b⟩ ∧
    ThemeService.apply
        (ThemeService.setSystemMode env (ThemeService.setUserDefinedMode st b)) =
      ThemeService.setMode
        (ThemeService.setSystemMode env (ThemeService.setUserDefinedMode st b)) b := by
  have hframe : ∀ st' : ThemeState,
      (ThemeService.setSystemMode env st').settings = st'.settings := by
    intro st'
    unfold ThemeService.setSystemMode
    dsimp only
    rw [(startSync_frame _ _).2.1, (setMode_frame _ _).2.1]
  have huser : (ThemeService.setUserDefinedMode st b).settings = some ⟨b⟩ := by
    unfold ThemeService.setUserDefinedMode
    dsimp only
  have h2 : (ThemeService.setSystemMode env
      (ThemeService.setUserDefinedMode st b)).settings = some ⟨b⟩ := by
    rw [hframe, huser]
  exact ⟨hframe st, h2, apply_of_settings _ _ h2⟩

/-- Claim C5: after `setUserDefinedMode(b)` the store holds, under the fixed
settings key, exactly the JSON-serialized record with `darkMode = b`, and
deserializing that value yields the record back (round-trip). -/
theorem C5_persist_roundtrip (st : ThemeState) (b : Bool) :
    getItem (ThemeService.setUserDefinedMode st b).store ThemeService.SETTINGS_KEY =
      some (serializeSettings ⟨b⟩) ∧
    parseSettings (serializeSettings ⟨b⟩) = some ⟨b⟩ := by
  constructor
  · unfold ThemeService.setUserDefinedMode
    dsimp only
    exact getItem_setItem _ _ _
  · cases b <;> rfl

/-- Claim C6, counterexample: in a headless context (no `defaultView`),
`isSystemDark()` evaluates to the undefined value (`none`), not to the
boolean `false` the claim promises. -/
theorem C6_counterexample :
    ThemeService.isSystemDark ⟨none⟩ = none ∧
    ThemeService.isSystemDark ⟨none⟩ ≠ some false :=
  ⟨rfl, by decide⟩

/-- Claim C6, amended: in a headless context `isSystemDark()` returns the
undefined value rather than a boolean; JS boolean contexts coerce that
undefined result to `false` (light), which is the only defined reading of
the call's result. -/
theorem C6_amended_headless (env : MediaEnv) (h : env.defaultView = none) :
    ThemeService.isSystemDark env = none ∧
    ThemeService.isSystemDarkValue env = false := by
  simp [ThemeService.isSystemDark, ThemeService.isSystemDarkValue, h]

/-- Claim C6, witness: the amended theorem evaluated on the headless
environment. -/
theorem C6_witness :
    ThemeService.isSystemDark ⟨none⟩ = none ∧
    ThemeService.isSystemDarkValue ⟨none⟩ = false :=
  C6_amended_headless ⟨none⟩ rfl

/-- Claim C7: once the owning scope's destroy signal has fired, the OS-sync
subscription is inactive and no sequence of OS preference-change events
changes the state at all — in particular no mode is ever applied to the
render collaborator after teardown. -/
theorem C7_cancelled_after_teardown (st : ThemeState) (events : List Bool) :
    (ThemeService.destroyScope st).subActive = false ∧
    ThemeService.osChangeEvents (ThemeService.destroyScope st) events =
      ThemeService.destroyScope st := by
  refine ⟨rfl, ?_⟩
  induction events with
  | nil => rfl
  | cons e tl ih =>
    unfold ThemeService.osChangeEvents at ih ⊢
    rw [List.foldl_cons, osChangeEvent_inactive _ _ rfl]
    exact ih

/-- Claim C8, counterexample: an empty string is persisted under the settings
key; the empty string is not valid JSON, yet `initialize()` does not fail —
the falsy serialized value skips `JSON.parse` entirely and fallback settings
ARE constructed from the OS preference, contradicting the claim. -/
theorem C8_counterexample :
    ThemeService.getDefaultSettings ⟨some ⟨false⟩⟩
        ⟨[("theme", "")], none, [], false, false⟩ =
      Except.ok ⟨[("theme", "")], some ⟨false⟩, [], true, false⟩ ∧
    ThemeService.getDefaultSettings ⟨some ⟨false⟩⟩
        ⟨[("theme", "")], none, [], false, false⟩ ≠
      Except.error () :=
  ⟨rfl, fun h => Except.noConfusion h⟩

/-- Claim C8, amended: if the persisted value under the settings key is
non-empty and fails to deserialize, `initialize()` propagates the
deserialization error to the caller and constructs nothing; an empty-string
value is falsy and is instead treated like an absent record. -/
theorem C8_amended_malformed (env : MediaEnv) (st : ThemeState) (s : String)
    (hs : getItem st.store ThemeService.SETTINGS_KEY = some s)
    (hne : s ≠ "") (hbad : parseSettings s = none) :
    ThemeService.getDefaultSettings env st = Except.error () := by
  unfold ThemeService.getDefaultSettings
  rw [hs]
  simp [hne, hbad]

/-- Claim C8, witness: the amended theorem evaluated on a store holding the
malformed value `nope`. -/
theorem C8_witness :
    ThemeService.getDefaultSettings ⟨none⟩
      ⟨[("theme", "nope")], none, [], false, false⟩ = Except.error () :=
  C8_amended_malformed ⟨none⟩ ⟨[("theme", "nope")], none, [], false, false⟩ "nope"
    rfl (by decide) rfl

/-- Claim C9: `setMode(true)` removes the light-mode class from the body and
`setMode(false)` adds it; these are the only effects — every other state
component and every other body class is left untouched. -/
theorem C9_setMode_effects (st : ThemeState) (b : Bool) (c : String)
    (hc : c ≠ ThemeService.LIGHT_MODE_CSS_CLASS_NAME) :
    (ThemeService.setMode st true).bodyClasses =
      removeClass st.bodyClasses ThemeService.LIGHT_MODE_CSS_CLASS_NAME ∧
    (ThemeService.setMode st false).bodyClasses =
      addClass st.bodyClasses ThemeService.LIGHT_MODE_CSS_CLASS_NAME ∧
    (ThemeService.setMode st b).store = st.store ∧
    (ThemeService.setMode st b).settings = st.settings ∧
    (ThemeService.setMode st b).subActive = st.subActive ∧
    (ThemeService.setMode st b).destroyed = st.destroyed ∧
    ((c ∈ (ThemeService.setMode st b).bodyClasses) ↔ c ∈ st.bodyClasses) := by
  have hframe := setMode_frame st b
  refine ⟨rfl, rfl, hframe.1, hframe.2.1, hframe.2.2.1, hframe.2.2.2, ?_⟩
  cases b
  · by_cases h : ThemeService.LIGHT_MODE_CSS_CLASS_NAME ∈ st.bodyClasses <;>
      simp [ThemeService.setMode, addClass, h, List.mem_append, hc]
  · simp [ThemeService.setMode, removeClass, List.mem_filter, hc]

/-- Claim C9, witness: a foreign body class survives `setMode(true)`. -/
theorem C9_witness :
    (("x" ∈ (ThemeService.setMode ⟨[], none, ["x"], false, false⟩ true).bodyClasses) ↔
      "x" ∈ (⟨[], none, ["x"], false, false⟩ : ThemeState).bodyClasses) :=
  (C9_setMode_effects ⟨[], none, ["x"], false, false⟩ true "x" (by decide)).2.2.2.2.2.2

/-- Claim C10: applying the same mode twice in a row leaves the state exactly
as applying it once — `setMode` is idempotent. -/
theorem C10_setMode_idempotent (st : ThemeState) (b : Bool) :
    ThemeService.setMode (ThemeService.setMode st b) b = ThemeService.setMode st b := by
  cases b <;> simp [ThemeService.setMode, removeClass, List.filter_filter, addClass]
  by_cases h : ThemeService.LIGHT_MODE_CSS_CLASS_NAME ∈ st.bodyClasses <;> simp [h]
